import Mathlib

/-!
Verification of the battery-monitoring daemon (src/battery_monitoring.py).

The Python program polls `/sys/class/power_supply`, keeps one four-bit
notification latch per battery, and fires a desktop notification the first
poll on which a threshold condition holds.  We shallowly embed the pure
decision logic:

* file reads (`safe_read`) are modelled as `Option String` values — `none`
  for a read failure, `some s` for the stripped file content `s`;
* the side effect of calling `notify` is reified: each `check_*` function
  returns a pair `(new latch bit, fired?)` where the Python function
  returns only the new latch bit and calls `notify` exactly when the
  embedded `fired?` component is `true`;
* the `notified` dictionary-of-dictionaries is an association list from
  battery name to a `Latches` record;
* module-level configuration (`CHECK_INTERVAL`, the startup `BATTERIES`
  list) becomes an explicit parameter.
-/

namespace BatteryMonitoring

/-- Thresholds from the top of the source: `LOW_THRESHOLD = 20`. -/
def LOW_THRESHOLD : Int := 20

/-- `HIGH_THRESHOLD = 85`. -/
def HIGH_THRESHOLD : Int := 85

/-- `UNPLUG_THRESHOLD = 95`. -/
def UNPLUG_THRESHOLD : Int := 95

/-- `FULL_THRESHOLD = 100`. -/
def FULL_THRESHOLD : Int := 100

/-- `CHECK_INTERVAL = max(1, args.interval)` — the configured base poll
interval derived from the `--interval` flag. -/
def CHECK_INTERVAL_of (interval : Int) : Int := max 1 interval

/-- One element of the list produced by `read_all_batteries`: the dict
`{"name": ..., "percent": ..., "status": ...}`.  `percent` is `none` when
the capacity file was unreadable, empty, or non-numeric. -/
structure BatteryReading where
  name : String
  percent : Option Int
  status : String
deriving Repr, DecidableEq

/-- Python `int(s)` on an already-stripped string: an optional sign followed
by a nonempty digit string; single underscores are allowed strictly between
digits (CPython numeral grouping).  `acc` carries the value of the digits
consumed so far. -/
def pyDigitsAux (acc : Nat) : List Char → Option Nat
  | [] => some acc
  | ['_'] => none
  | '_' :: c :: rest =>
      if c.isDigit then pyDigitsAux (acc * 10 + (c.toNat - 48)) rest else none
  | c :: rest =>
      if c.isDigit then pyDigitsAux (acc * 10 + (c.toNat - 48)) rest else none

/-- The unsigned part of Python `int(s)`: the first character must be a
digit, the rest is consumed by `pyDigitsAux`. -/
def pyIntCore : List Char → Option Nat
  | [] => none
  | c :: rest =>
      if c.isDigit then pyDigitsAux (c.toNat - 48) rest else none

/-- Python `int(s)` for a stripped string `s`: `none` models the
`ValueError` branch of `read_all_batteries`. -/
def pyInt (s : String) : Option Int :=
  match s.data with
  | '+' :: rest => (pyIntCore rest).map (fun n => (n : Int))
  | '-' :: rest => (pyIntCore rest).map (fun n => -(n : Int))
  | l => (pyIntCore l).map (fun n => (n : Int))

/-- `percent = int(cap) if cap else None`, with `ValueError` caught and
turned into `None`; `cap` is the result of `safe_read(bat, "capacity")`. -/
def parse_percent (cap : Option String) : Option Int :=
  match cap with
  | none => none
  | some s => if s = "" then none else pyInt s

/-- Python `str.lower()` on the ASCII status strings sysfs produces
("Charging", "Discharging", "Full", "Unknown", ...): lower-case each
character. -/
def py_lower (s : String) : String :=
  ⟨s.data.map (fun c => if 'A' ≤ c ∧ c ≤ 'Z' then Char.ofNat (c.toNat + 32) else c)⟩

/-- Assembles one entry of `read_all_batteries`: the percent comes from the
capacity file, the status is `(status or "").lower()`. -/
def read_battery (name : String) (cap status : Option String) : BatteryReading :=
  { name := name
    percent := parse_percent cap
    status := py_lower (status.getD "") }

/-- `read_all_batteries()`: iterates over the startup `BATTERIES` list and
produces exactly one reading per device.  `reads name` gives the
`(capacity, status)` file contents for device `name` this poll. -/
def read_all_batteries (batteries : List String)
    (reads : String → Option String × Option String) : List BatteryReading :=
  batteries.map (fun b => read_battery b (reads b).1 (reads b).2)

/-- `is_plugged_any(batts)`: true when some reading has status `charging`
or `full`, or some AC adapter's `online` file reads `"1"`.  `acOnline` is
the list of `safe_read(a, "online")` results over `AC_ADAPTERS`. -/
def is_plugged_any (batts : List BatteryReading)
    (acOnline : List (Option String)) : Bool :=
  batts.any (fun b => b.status == "charging" || b.status == "full")
    || acOnline.any (fun o => o == some "1")

/-- `check_low`: fires (critical) when `p <= LOW_THRESHOLD and not plugged
and not notified`; otherwise returns `False if plugged else notified`.
Second component: did this call fire a notification? -/
def check_low (bat : BatteryReading) (plugged notified : Bool) : Bool × Bool :=
  match bat.percent with
  | none => (notified, false)
  | some p =>
      if decide (p ≤ LOW_THRESHOLD) && !plugged && !notified then
        (true, true)
      else
        (if plugged then false else notified, false)

/-- `check_high`: fires when `plugged and p >= HIGH_THRESHOLD and not
notified`; otherwise returns `False if not plugged else notified`. -/
def check_high (bat : BatteryReading) (plugged notified : Bool) : Bool × Bool :=
  match bat.percent with
  | none => (notified, false)
  | some p =>
      if plugged && decide (p ≥ HIGH_THRESHOLD) && !notified then
        (true, true)
      else
        (if !plugged then false else notified, false)

/-- `check_unplug`: fires when `plugged and p >= UNPLUG_THRESHOLD and not
notified`; otherwise returns `False if (not plugged or p < UNPLUG_THRESHOLD)
else notified`. -/
def check_unplug (bat : BatteryReading) (plugged notified : Bool) : Bool × Bool :=
  match bat.percent with
  | none => (notified, false)
  | some p =>
      if plugged && decide (p ≥ UNPLUG_THRESHOLD) && !notified then
        (true, true)
      else
        (if !plugged || decide (p < UNPLUG_THRESHOLD) then false else notified, false)

/-- `check_full`: fires when `plugged and p >= FULL_THRESHOLD and not
notified`; otherwise returns `False if (not plugged or p < FULL_THRESHOLD)
else notified`. -/
def check_full (bat : BatteryReading) (plugged notified : Bool) : Bool × Bool :=
  match bat.percent with
  | none => (notified, false)
  | some p =>
      if plugged && decide (p ≥ FULL_THRESHOLD) && !notified then
        (true, true)
      else
        (if !plugged || decide (p < FULL_THRESHOLD) then false else notified, false)

/-- `dynamic_interval(min_percent)`. -/
def dynamic_interval (CHECK_INTERVAL min_percent : Int) : Int :=
  if min_percent ≤ 20 then 20
  else if min_percent ≤ 40 then 40
  else CHECK_INTERVAL

/-- The interval computation at the bottom of `main`:
`percents = [b["percent"] for b in bats if b["percent"] is not None]` and
`interval = dynamic_interval(min(percents) if percents else CHECK_INTERVAL)`. -/
def main_interval (CHECK_INTERVAL : Int) (bats : List BatteryReading) : Int :=
  let percents := bats.filterMap (fun b => b.percent)
  dynamic_interval CHECK_INTERVAL
    (match percents with
     | [] => CHECK_INTERVAL
     | p :: rest => rest.foldl min p)

/-- The per-battery latch dict `{"low": ..., "high": ..., "unplug": ...,
"full": ...}`. -/
structure Latches where
  low : Bool
  high : Bool
  unplug : Bool
  full : Bool
deriving Repr, DecidableEq

/-- The all-false latch record `init_notified` assigns to every battery. -/
def Latches.allFalse : Latches := ⟨false, false, false, false⟩

/-- The `notified` dict: battery name → latch record, as an association
list (keys in the order `init_notified` creates them). -/
abbrev NotifierState := List (String × Latches)

/-- `init_notified()`: one all-false latch record per startup battery. -/
def init_notified (batteries : List String) : NotifierState :=
  batteries.map (fun name => (name, Latches.allFalse))

/-- The guard `set(notified.keys()) != current_names` in `main`, with
Python sets modelled as finsets of the key/name lists. -/
def batteries_changed (notified : NotifierState) (current : List String) : Bool :=
  decide ((notified.map Prod.fst).toFinset ≠ current.toFinset)

/-- The fleet-reconciliation statement in `main`: on a key-set mismatch the
whole map is replaced by `init_notified()` (built from the startup
`BATTERIES` list), otherwise kept. -/
def reconcile (batteries : List String) (notified : NotifierState)
    (current : List String) : NotifierState :=
  if batteries_changed notified current then init_notified batteries else notified

/-! ## Theorems for the claims -/

/-- C6: for every reading whose percent is unavailable (`none`), each of
`check_low`, `check_high`, `check_unplug`, `check_full` returns the latch
bit it was given unchanged and fires no notification, for every value of
`plugged` and of the incoming latch bit. -/
theorem C6_unknown_percent_latch_unchanged
    (name status : String) (plugged notified : Bool) :
    check_low ⟨name, none, status⟩ plugged notified = (notified, false) ∧
    check_high ⟨name, none, status⟩ plugged notified = (notified, false) ∧
    check_unplug ⟨name, none, status⟩ plugged notified = (notified, false) ∧
    check_full ⟨name, none, status⟩ plugged notified = (notified, false) := by
  refine ⟨rfl, rfl, rfl, rfl⟩

/-- C7: for every known percent value, including percent still ≤ 20, if the
low latch is true and `plugged` is true then `check_low` returns `false`
(the latch re-arms) and fires no notification. -/
theorem C7_replug_resets_low (name status : String) (p : Int) :
    check_low ⟨name, some p, status⟩ true true = (false, false) := by
  simp [check_low]

/-- C9: while `plugged` is true, `check_low` never fires a low notification
and never raises the low latch to true (the output bit is true only when
the incoming bit already was), for every percent value including `none`
and values ≤ 20. -/
theorem C9_low_never_fires_plugged
    (name status : String) (percent : Option Int) (notified : Bool) :
    (check_low ⟨name, percent, status⟩ true notified).2 = false ∧
    ((check_low ⟨name, percent, status⟩ true notified).1 && !notified) = false := by
  cases percent with
  | none => simp [check_low]
  | some p => simp [check_low]

/-- C8: `is_plugged_any` returns true iff some battery reading has status
`"charging"` or `"full"`, or some AC adapter's online flag reads `"1"`;
with no charging/full reading and no adapter online it returns false. -/
theorem C8_is_plugged_any_iff
    (batts : List BatteryReading) (acOnline : List (Option String)) :
    is_plugged_any batts acOnline = true ↔
      ((∃ b ∈ batts, b.status = "charging" ∨ b.status = "full") ∨
        (∃ o ∈ acOnline, o = some "1")) := by
  simp [is_plugged_any, List.any_eq_true]

/-- C2 counterexample: the claim says that on unplug `check_full` returns
false "only if percent has also dropped below 100".  At percent = 100 (not
below 100), plugged = false, latch = true, the code nevertheless resets the
latch to false: the reset condition `not plugged or p < FULL_THRESHOLD` is
satisfied by the unplug alone. -/
theorem C2_full_reset_counterexample :
    check_full ⟨"BAT0", some 100, "discharging"⟩ false true = (false, false) ∧
    ¬ ((100 : Int) < FULL_THRESHOLD) := by
  refine ⟨rfl, by decide⟩

/-- C2 (amended): with percent known and `plugged` false, `check_high` and
`check_unplug` return false regardless of percent; `check_full` also
returns false regardless of percent (its reset condition is `not plugged or
p < 100`, so the unplug alone resets it); `check_low` is not reset by the
unplug: a latched true stays true, and an unlatched low latch changes only
when low's own trigger (percent ≤ 20) fires, staying false for percent
above 20.  None of these resets fires a notification. -/
theorem C2_unplug_resets
    (name status : String) (p : Int) (notified : Bool) :
    check_high ⟨name, some p, status⟩ false notified = (false, false) ∧
    check_unplug ⟨name, some p, status⟩ false notified = (false, false) ∧
    check_full ⟨name, some p, status⟩ false notified = (false, false) ∧
    check_low ⟨name, some p, status⟩ false true = (true, false) ∧
    (LOW_THRESHOLD < p → check_low ⟨name, some p, status⟩ false false = (false, false)) := by
  refine ⟨by simp [check_high], by simp [check_unplug], by simp [check_full],
    by simp [check_low], ?_⟩
  intro hp
  simp [check_low, LOW_THRESHOLD] at hp ⊢
  omega

/-- Witness for C2_unplug_resets at name "BAT0", status "discharging",
percent 50, latch true: the hypothesis 20 < 50 of the last conjunct is
discharged concretely. -/
theorem C2_unplug_resets_witness :
    check_high ⟨"BAT0", some 50, "discharging"⟩ false true = (false, false) ∧
    check_low ⟨"BAT0", some 50, "discharging"⟩ false false = (false, false) :=
  ⟨(C2_unplug_resets "BAT0" "discharging" 50 true).1,
    (C2_unplug_resets "BAT0" "discharging" 50 true).2.2.2.2 (by decide)⟩

/-- C3: with the configured base interval 10 (so `CHECK_INTERVAL =
max(1, 10) = 10`) and a poll in which no battery reports a percent, `main`
computes `dynamic_interval(CHECK_INTERVAL)` — it feeds the base interval in
as if it were a percentage — and sleeps 20 seconds, not the configured 10.
This contradicts both the claim and §4.4 of the spec ("if no batteries
report a percent, return the configured base interval"), which state the
clear intent; the code's reuse of `CHECK_INTERVAL` as a stand-in percent is
a slip that misbehaves for every base ≤ 40 other than 20 and 40. -/
theorem C3_no_reading_base_interval_bug :
    CHECK_INTERVAL_of 10 = 10 ∧
    main_interval (CHECK_INTERVAL_of 10)
      (read_all_batteries ["BAT0"] (fun _ => (none, some "Discharging"))) = 20 := by
  refine ⟨by decide, rfl⟩

/-- C4 counterexample: a capacity file whose (stripped) content is `"150"`
parses to percent `some 150`, which is outside the claimed 0–100 range —
`read_all_batteries` applies `int(...)` with no range validation. -/
theorem C4_range_counterexample :
    (read_battery "BAT0" (some "150") (some "Discharging")).percent = some 150 ∧
    ¬ ((150 : Int) ≤ 100) := by
  refine ⟨rfl, by decide⟩

/-- C4 (amended): every reading produced by `read_all_batteries` has
percent equal to `none` (file unreadable, empty, or non-numeric) or to the
integer Python's `int` parses from the capacity file content — with no
clamping to 0–100, so out-of-range contents such as "150" or "-5" yield
out-of-range percents. -/
theorem C4_percent_is_parsed_unclamped :
    (∀ (batteries : List String) (reads : String → Option String × Option String),
      ∀ b ∈ read_all_batteries batteries reads,
        b.percent = parse_percent (reads b.name).1) ∧
    parse_percent (some "150") = some 150 ∧
    parse_percent (some "-5") = some (-5) := by
  refine ⟨?_, rfl, rfl⟩
  intro batteries reads b hb
  simp only [read_all_batteries, List.mem_map] at hb
  obtain ⟨name, _, rfl⟩ := hb
  rfl

/-- Witness for C4_percent_is_parsed_unclamped: the universally quantified
part applied to the one-battery fleet whose capacity file reads "150". -/
theorem C4_percent_witness :
    (read_battery "BAT0" (some "150") (some "Full")).percent = parse_percent (some "150") :=
  C4_percent_is_parsed_unclamped.1 ["BAT0"] (fun _ => (some "150", some "Full"))
    (read_battery "BAT0" (some "150") (some "Full")) (by simp [read_all_batteries])

/-! ## Latch runs across consecutive polls (claim C1)

`run_latch f L polls` folds one check function over a sequence of polls for
a single battery and latch class; each poll supplies the reading and the
plugged flag.  It returns the final latch bit and the number of
notifications fired along the way. -/

def run_latch (f : BatteryReading → Bool → Bool → Bool × Bool) :
    Bool → List (BatteryReading × Bool) → Bool × Nat
  | L, [] => (L, 0)
  | L, x :: rest =>
      let r := f x.1 x.2 L
      let r2 := run_latch f r.1 rest
      (r2.1, (if r.2 then 1 else 0) + r2.2)

/-- The trigger condition C of the `low` class (spec §4.3):
percent ≤ 20 AND NOT plugged (false when percent is unavailable). -/
def trigger_low (b : BatteryReading) (plugged : Bool) : Bool :=
  match b.percent with
  | none => false
  | some p => decide (p ≤ LOW_THRESHOLD) && !plugged

/-- The trigger condition of the `high` class: plugged AND percent ≥ 85. -/
def trigger_high (b : BatteryReading) (plugged : Bool) : Bool :=
  match b.percent with
  | none => false
  | some p => plugged && decide (p ≥ HIGH_THRESHOLD)

/-- The trigger condition of the `unplug` class: plugged AND percent ≥ 95. -/
def trigger_unplug (b : BatteryReading) (plugged : Bool) : Bool :=
  match b.percent with
  | none => false
  | some p => plugged && decide (p ≥ UNPLUG_THRESHOLD)

/-- The trigger condition of the `full` class: plugged AND percent ≥ 100. -/
def trigger_full (b : BatteryReading) (plugged : Bool) : Bool :=
  match b.percent with
  | none => false
  | some p => plugged && decide (p ≥ FULL_THRESHOLD)

/-- While a latch is already true and its trigger condition keeps holding,
a check function satisfying the two step laws keeps the latch true and
fires nothing over a whole run. -/
theorem run_latch_stays_latched (f : BatteryReading → Bool → Bool → Bool × Bool)
    (C : BatteryReading → Bool → Bool)
    (Ht : ∀ b pl, C b pl = true → f b pl true = (true, false)) :
    ∀ polls, (∀ x ∈ polls, C x.1 x.2 = true) → run_latch f true polls = (true, 0) := by
  intro polls
  induction polls with
  | nil => intro _; rfl
  | cons x rest ih =>
      intro h
      have hx := Ht x.1 x.2 (h x (by simp))
      have hr := ih (fun y hy => h y (by simp [hy]))
      simp [run_latch, hx, hr]

/-- Generic at-most-once law: if a check function fires and latches from an
unlatched state whenever C holds, and keeps a latched state silently
whenever C holds, then any run whose polls all satisfy C fires at most one
notification, from either initial latch state. -/
theorem run_latch_fires_at_most_once (f : BatteryReading → Bool → Bool → Bool × Bool)
    (C : BatteryReading → Bool → Bool)
    (Ht : ∀ b pl, C b pl = true → f b pl true = (true, false))
    (Hf : ∀ b pl, C b pl = true → f b pl false = (true, true)) :
    ∀ (L0 : Bool) (polls : List (BatteryReading × Bool)),
      (∀ x ∈ polls, C x.1 x.2 = true) → (run_latch f L0 polls).2 ≤ 1 := by
  intro L0 polls h
  cases L0 with
  | true => simp [run_latch_stays_latched f C Ht polls h]
  | false =>
      cases polls with
      | nil => simp [run_latch]
      | cons x rest =>
          have hx := Hf x.1 x.2 (h x (by simp))
          have hr := run_latch_stays_latched f C Ht rest (fun y hy => h y (by simp [hy]))
          simp [run_latch, hx, hr]

/-- Step law for `check_low` on a latched state. -/
theorem check_low_step_true (b : BatteryReading) (pl : Bool)
    (h : trigger_low b pl = true) : check_low b pl true = (true, false) := by
  cases hb : b.percent with
  | none => simp [trigger_low, hb] at h
  | some p =>
      simp [trigger_low, hb] at h
      simp [check_low, hb, h.1, h.2]

/-- Step law for `check_low` on an unlatched state. -/
theorem check_low_step_false (b : BatteryReading) (pl : Bool)
    (h : trigger_low b pl = true) : check_low b pl false = (true, true) := by
  cases hb : b.percent with
  | none => simp [trigger_low, hb] at h
  | some p =>
      simp [trigger_low, hb] at h
      simp [check_low, hb, h.1, h.2]

/-- Step law for `check_high` on a latched state. -/
theorem check_high_step_true (b : BatteryReading) (pl : Bool)
    (h : trigger_high b pl = true) : check_high b pl true = (true, false) := by
  cases hb : b.percent with
  | none => simp [trigger_high, hb] at h
  | some p =>
      simp [trigger_high, hb] at h
      simp [check_high, hb, h.1, h.2]

/-- Step law for `check_high` on an unlatched state. -/
theorem check_high_step_false (b : BatteryReading) (pl : Bool)
    (h : trigger_high b pl = true) : check_high b pl false = (true, true) := by
  cases hb : b.percent with
  | none => simp [trigger_high, hb] at h
  | some p =>
      simp [trigger_high, hb] at h
      simp [check_high, hb, h.1, h.2]

/-- Step law for `check_unplug` on a latched state. -/
theorem check_unplug_step_true (b : BatteryReading) (pl : Bool)
    (h : trigger_unplug b pl = true) : check_unplug b pl true = (true, false) := by
  cases hb : b.percent with
  | none => simp [trigger_unplug, hb] at h
  | some p =>
      simp [trigger_unplug, hb] at h
      have hlt : ¬ (p < UNPLUG_THRESHOLD) := by
        have := h.2
        simp [UNPLUG_THRESHOLD] at this ⊢
        omega
      simp [check_unplug, hb, h.1, h.2, hlt]

/-- Step law for `check_unplug` on an unlatched state. -/
theorem check_unplug_step_false (b : BatteryReading) (pl : Bool)
    (h : trigger_unplug b pl = true) : check_unplug b pl false = (true, true) := by
  cases hb : b.percent with
  | none => simp [trigger_unplug, hb] at h
  | some p =>
      simp [trigger_unplug, hb] at h
      simp [check_unplug, hb, h.1, h.2]

/-- Step law for `check_full` on a latched state. -/
theorem check_full_step_true (b : BatteryReading) (pl : Bool)
    (h : trigger_full b pl = true) : check_full b pl true = (true, false) := by
  cases hb : b.percent with
  | none => simp [trigger_full, hb] at h
  | some p =>
      simp [trigger_full, hb] at h
      have hlt : ¬ (p < FULL_THRESHOLD) := by
        have := h.2
        simp [FULL_THRESHOLD] at this ⊢
        omega
      simp [check_full, hb, h.1, h.2, hlt]

/-- Step law for `check_full` on an unlatched state. -/
theorem check_full_step_false (b : BatteryReading) (pl : Bool)
    (h : trigger_full b pl = true) : check_full b pl false = (true, true) := by
  cases hb : b.percent with
  | none => simp [trigger_full, hb] at h
  | some p =>
      simp [trigger_full, hb] at h
      simp [check_full, hb, h.1, h.2]

/-- C1: over any sequence of polls on which a class's trigger condition C
holds continuously, that class's check function fires at most one
notification, from either initial latch state; in particular once it has
returned true and C still holds, it stays true without firing again. -/
theorem C1_at_most_one_per_trigger_interval
    (L0 : Bool) (polls : List (BatteryReading × Bool)) :
    ((∀ x ∈ polls, trigger_low x.1 x.2 = true) →
      (run_latch check_low L0 polls).2 ≤ 1) ∧
    ((∀ x ∈ polls, trigger_high x.1 x.2 = true) →
      (run_latch check_high L0 polls).2 ≤ 1) ∧
    ((∀ x ∈ polls, trigger_unplug x.1 x.2 = true) →
      (run_latch check_unplug L0 polls).2 ≤ 1) ∧
    ((∀ x ∈ polls, trigger_full x.1 x.2 = true) →
      (run_latch check_full L0 polls).2 ≤ 1) :=
  ⟨run_latch_fires_at_most_once check_low trigger_low
      check_low_step_true check_low_step_false L0 polls,
    run_latch_fires_at_most_once check_high trigger_high
      check_high_step_true check_high_step_false L0 polls,
    run_latch_fires_at_most_once check_unplug trigger_unplug
      check_unplug_step_true check_unplug_step_false L0 polls,
    run_latch_fires_at_most_once check_full trigger_full
      check_full_step_true check_full_step_false L0 polls⟩

/-- Witness for C1: concrete two-poll runs with the trigger holding at both
polls (18% unplugged; 90%, 96%, 100% plugged), starting unlatched. -/
theorem C1_at_most_one_witness :
    (run_latch check_low false
      [(⟨"BAT0", some 18, "discharging"⟩, false),
        (⟨"BAT0", some 18, "discharging"⟩, false)]).2 ≤ 1 ∧
    (run_latch check_high false
      [(⟨"BAT0", some 90, "charging"⟩, true),
        (⟨"BAT0", some 90, "charging"⟩, true)]).2 ≤ 1 ∧
    (run_latch check_unplug false
      [(⟨"BAT0", some 96, "charging"⟩, true),
        (⟨"BAT0", some 96, "charging"⟩, true)]).2 ≤ 1 ∧
    (run_latch check_full false
      [(⟨"BAT0", some 100, "full"⟩, true),
        (⟨"BAT0", some 100, "full"⟩, true)]).2 ≤ 1 :=
  ⟨(C1_at_most_one_per_trigger_interval false
      [(⟨"BAT0", some 18, "discharging"⟩, false),
        (⟨"BAT0", some 18, "discharging"⟩, false)]).1 (by decide),
    (C1_at_most_one_per_trigger_interval false
      [(⟨"BAT0", some 90, "charging"⟩, true),
        (⟨"BAT0", some 90, "charging"⟩, true)]).2.1 (by decide),
    (C1_at_most_one_per_trigger_interval false
      [(⟨"BAT0", some 96, "charging"⟩, true),
        (⟨"BAT0", some 96, "charging"⟩, true)]).2.2.1 (by decide),
    (C1_at_most_one_per_trigger_interval false
      [(⟨"BAT0", some 100, "full"⟩, true),
        (⟨"BAT0", some 100, "full"⟩, true)]).2.2.2 (by decide)⟩

/-! ## The main loop (claims C5 and C10) -/

/-- The names of the readings a poll produces are exactly the startup
`BATTERIES` list: `read_all_batteries` appends one entry per device. -/
theorem read_all_batteries_names (batteries : List String)
    (reads : String → Option String × Option String) :
    (read_all_batteries batteries reads).map (fun b => b.name) = batteries := by
  induction batteries with
  | nil => rfl
  | cons b rest ih =>
      simp only [read_all_batteries, List.map_cons] at ih ⊢
      exact congrArg (b :: ·) ih

/-- `init_notified` keys are exactly the startup battery names. -/
theorem init_notified_keys (batteries : List String) :
    (init_notified batteries).map Prod.fst = batteries := by
  induction batteries with
  | nil => rfl
  | cons b rest ih =>
      simp only [init_notified, List.map_cons] at ih ⊢
      exact congrArg (b :: ·) ih

/-- C5: whenever the observed name set differs from the latch map's key
set, the map is replaced by `init_notified()`, whose keys are exactly the
currently observed battery ids (all of them, latches of unchanged batteries
included) and whose latch bits are all false. -/
theorem C5_mismatch_resets_all (batteries : List String)
    (reads : String → Option String × Option String) (notified : NotifierState)
    (h : batteries_changed notified
      ((read_all_batteries batteries reads).map (fun b => b.name)) = true) :
    reconcile batteries notified
        ((read_all_batteries batteries reads).map (fun b => b.name)) =
      init_notified batteries ∧
    (init_notified batteries).map Prod.fst =
      (read_all_batteries batteries reads).map (fun b => b.name) ∧
    ∀ e ∈ init_notified batteries, e.2 = Latches.allFalse := by
  refine ⟨by simp [reconcile, h], ?_, ?_⟩
  · rw [init_notified_keys, read_all_batteries_names]
  · intro e he
    simp only [init_notified, List.mem_map] at he
    obtain ⟨n, _, rfl⟩ := he
    rfl

/-- Witness for C5: an empty latch map against a one-battery fleet is a
mismatch, and the reset installs the fresh map. -/
theorem C5_mismatch_witness :
    reconcile ["BAT0"] []
        ((read_all_batteries ["BAT0"] (fun _ => (none, none))).map (fun b => b.name)) =
      init_notified ["BAT0"] :=
  (C5_mismatch_resets_all ["BAT0"] (fun _ => (none, none)) [] (by decide)).1

/-- The four latch updates the for-loop body performs for one battery
(`notified[name]["low"] = check_low(...)`, etc.); each check reads only its
own class's previous bit, so the sequential dict writes equal this record
update. -/
def eval_battery (b : BatteryReading) (plugged : Bool) (l : Latches) : Latches :=
  { low := (check_low b plugged l.low).1
    high := (check_high b plugged l.high).1
    unplug := (check_unplug b plugged l.unplug).1
    full := (check_full b plugged l.full).1 }

/-- Writing battery `b`'s latches back into the map (an update of the
existing key `b.name`; `main` only reaches this with `b.name` present). -/
def update_entry (plugged : Bool) (b : BatteryReading) (st : NotifierState) :
    NotifierState :=
  st.map (fun e => if e.1 = b.name then (e.1, eval_battery b plugged e.2) else e)

/-- The whole `for b in bats:` loop over one poll's readings. -/
def update_latches (plugged : Bool) (bats : List BatteryReading)
    (st : NotifierState) : NotifierState :=
  bats.foldl (fun s b => update_entry plugged b s) st

/-- One iteration of `main`'s `while True:` loop (log rotation and sleeping
elided): read, aggregate plug state, reconcile on membership change, update
every battery's latches.  The boolean records whether the reset branch was
taken this poll. -/
def loop_step (batteries : List String) (acOnline : List (Option String))
    (reads : String → Option String × Option String) (notified : NotifierState) :
    NotifierState × Bool :=
  let bats := read_all_batteries batteries reads
  let plugged := is_plugged_any bats acOnline
  let current := bats.map (fun b => b.name)
  let changed := batteries_changed notified current
  let st1 := if changed then init_notified batteries else notified
  (update_latches plugged bats st1, changed)

/-- The environment's inputs to one poll: per-device file contents and the
AC adapters' online reads. -/
structure Poll where
  reads : String → Option String × Option String
  acOnline : List (Option String)

/-- Runs `main`'s loop over a finite list of polls; the boolean is true
when any poll took the "batteries changed" reset branch. -/
def run_loop (batteries : List String) :
    NotifierState → List Poll → NotifierState × Bool
  | st, [] => (st, false)
  | st, poll :: rest =>
      let s := loop_step batteries poll.acOnline poll.reads st
      let r := run_loop batteries s.1 rest
      (r.1, s.2 || r.2)

/-- Updating one battery's latches never changes the key list. -/
theorem update_entry_keys (plugged : Bool) (b : BatteryReading)
    (st : NotifierState) :
    (update_entry plugged b st).map Prod.fst = st.map Prod.fst := by
  induction st with
  | nil => rfl
  | cons e rest ih =>
      have h1 : ((if e.1 = b.name then (e.1, eval_battery b plugged e.2) else e)).1 = e.1 := by
        split <;> rfl
      simp only [update_entry, List.map_cons] at ih ⊢
      rw [h1]
      exact congrArg (e.1 :: ·) ih

/-- A whole poll's latch updates never change the key list. -/
theorem update_latches_keys (plugged : Bool) (bats : List BatteryReading)
    (st : NotifierState) :
    (update_latches plugged bats st).map Prod.fst = st.map Prod.fst := by
  induction bats generalizing st with
  | nil => rfl
  | cons b rest ih =>
      show (update_latches plugged rest (update_entry plugged b st)).map Prod.fst
        = st.map Prod.fst
      rw [ih, update_entry_keys]

/-- When the latch map's keys are exactly the startup battery names, a poll
does not take the reset branch and preserves the keys. -/
theorem loop_step_no_reset (batteries : List String)
    (acOnline : List (Option String))
    (reads : String → Option String × Option String) (notified : NotifierState)
    (h : notified.map Prod.fst = batteries) :
    (loop_step batteries acOnline reads notified).2 = false ∧
    (loop_step batteries acOnline reads notified).1.map Prod.fst = batteries := by
  have hch : batteries_changed notified
      ((read_all_batteries batteries reads).map (fun b => b.name)) = false := by
    simp [batteries_changed, read_all_batteries_names, h]
  constructor
  · simp only [loop_step]
    exact hch
  · have h2 : (loop_step batteries acOnline reads notified).1.map Prod.fst
        = notified.map Prod.fst := by
      simp [loop_step, hch, update_latches_keys]
    rw [h2, h]

/-- Starting from keys = startup names, no poll of any run ever takes the
reset branch. -/
theorem run_loop_no_reset (batteries : List String) :
    ∀ (polls : List Poll) (st : NotifierState), st.map Prod.fst = batteries →
      (run_loop batteries st polls).2 = false := by
  intro polls
  induction polls with
  | nil => intro st _; rfl
  | cons poll rest ih =>
      intro st h
      have hs := loop_step_no_reset batteries poll.acOnline poll.reads st h
      simp only [run_loop, hs.1, Bool.false_or]
      exact ih _ hs.2

/-- C10: `read_all_batteries` returns exactly one reading per startup
device (so the observed name set always equals the latch map's key set),
and therefore the "batteries changed" reset branch of `main` is never taken
on any run that starts from `init_notified()`. -/
theorem C10_reset_branch_unreachable (batteries : List String) :
    (∀ reads, (read_all_batteries batteries reads).map (fun b => b.name) = batteries) ∧
    (∀ polls : List Poll,
      (run_loop batteries (init_notified batteries) polls).2 = false) :=
  ⟨fun reads => read_all_batteries_names batteries reads,
    fun polls => run_loop_no_reset batteries polls (init_notified batteries)
      (init_notified_keys batteries)⟩

end BatteryMonitoring
